import Mathlib

/-!
# Verification of the BG3 lobby bot session core (`bg3_lobby_bot.py`)

Shallow embedding of the session state machine of the lobby bot:
the durable-snapshot loader (`load_data`), the debounced persister
(`save_data` / `_immediate_save`), the presence reconciler
(`on_presence_update`), the command handlers (`code_set`, `code_clear`,
`subscribe`, `unsubscribe`) and the presence parser (`parse_party_info`).

External I/O (message sends, edits, deletes, direct messages, durable
writes) is modelled as a list of emitted `Effect`s; the status-message
refresh (`update_message` / `send_or_edit_message`) is modelled as the
single effect `Effect.refreshStatus`, since its behaviour depends only on
responses of the external message store.  Timestamps (`datetime.now`) and
the message identifier returned by a send are supplied as explicit
environment parameters.
-/

namespace BG3

/-! ## JSON documents and the snapshot loader (`load_data`, lines 58-85)

JSON values as produced by `json.load`.  Integer numbers load as Python
`int`; non-integer numbers (Python `float`) are not modelled separately —
for the one place shape matters (the `isinstance(u, (int, str))` filter on
subscriber entries) a float behaves like the other dropped shapes, so the
model constructors `jarr`/`jobj`/`null` stand in for every
non-`int`/`str` value. -/
inductive JValue where
  | null
  | jbool (b : Bool)
  | jint (n : Int)
  | jstr (s : String)
  | jarr (elems : List JValue)
  | jobj (fields : List (String × JValue))

/-- Digits-only check used by the model of Python `int(str)`. -/
def isDigits (cs : List Char) : Bool :=
  !cs.isEmpty && cs.all Char.isDigit

/-- Numeric value of a list of decimal digits. -/
def natOfDigits (cs : List Char) : Nat :=
  cs.foldl (fun a c => a * 10 + (c.toNat - 48)) 0

/-- Python `int(s)` for a string `s`: an optional sign followed by decimal
digits parses; anything else raises `ValueError`, modelled as `none`.
(Python additionally strips surrounding whitespace and allows `_` digit
separators; those inputs behave like plain digit strings and are outside
the behaviours the claims exercise.) -/
def pyIntOfString (s : String) : Option Int :=
  match s.toList with
  | '-' :: rest => if isDigits rest then some (-(natOfDigits rest : Int)) else none
  | '+' :: rest => if isDigits rest then some (natOfDigits rest : Int) else none
  | cs => if isDigits cs then some (natOfDigits cs : Int) else none

/-- The in-memory result of `load_data`: the five scalar keys hold whatever
raw JSON value the file supplied (the loader copies `raw[k]` for known keys
without shape validation), while `subscribers` has been normalised to a
list of integers. -/
structure LoadedData where
  code : JValue
  timestamp : JValue
  party_info : JValue
  message_id : JValue
  ping_message_id : JValue
  subscribers : List Int

/-- The `default` record of `load_data` (lines 59-66): every scalar key is
`None`, `subscribers` is `[]`. -/
def defaultLoaded : LoadedData :=
  { code := .null, timestamp := .null, party_info := .null
    message_id := .null, ping_message_id := .null, subscribers := [] }

/-- Working dictionary during the copy loop: `subscribers` is still a raw
JSON value (it is re-validated after the loop). -/
structure RawDict where
  code : JValue := .null
  timestamp : JValue := .null
  party_info : JValue := .null
  message_id : JValue := .null
  ping_message_id : JValue := .null
  subscribers : JValue := .jarr []

/-- One iteration of `for k, v in raw.items(): if k in data: data[k] = v`
(lines 77-79): known keys are overwritten with the raw value, unknown keys
are ignored. -/
def setKey (d : RawDict) (k : String) (v : JValue) : RawDict :=
  if k == "code" then { d with code := v }
  else if k == "timestamp" then { d with timestamp := v }
  else if k == "party_info" then { d with party_info := v }
  else if k == "message_id" then { d with message_id := v }
  else if k == "ping_message_id" then { d with ping_message_id := v }
  else if k == "subscribers" then { d with subscribers := v }
  else d

/-- The subscriber normalisation
`[int(u) for u in subs if isinstance(u, (int, str))]` (line 84).
Entries that are not `int`/`bool`/`str` fail the `isinstance` filter and
are dropped.  `bool` passes the filter because Python `bool` is a subclass
of `int` (`int(True) = 1`).  A string entry is kept by the filter and then
passed to `int(u)`, which raises an uncaught `ValueError` when the string
is not an integer literal — modelled as `Except.error ()`. -/
def normalizeSubs : List JValue → Except Unit (List Int)
  | [] => .ok []
  | .jint n :: rest => (normalizeSubs rest).map (n :: ·)
  | .jbool b :: rest => (normalizeSubs rest).map ((if b then (1 : Int) else 0) :: ·)
  | .jstr t :: rest =>
    match pyIntOfString t with
    | some n => (normalizeSubs rest).map (n :: ·)
    | none => .error ()
  | _ :: rest => normalizeSubs rest

/-- Loader `load_data()` (lines 58-85).  The input is the parsed on-disk document:
`none` models `FileNotFoundError`/`JSONDecodeError` (caught, defaults
returned); a non-object document is reset to the defaults; otherwise known
keys are copied verbatim and `subscribers` is normalised, which can raise
(`Except.error`). -/
def load_data (doc : Option JValue) : Except Unit LoadedData :=
  match doc with
  | none => .ok defaultLoaded
  | some (.jobj fields) =>
    let d := fields.foldl (fun d kv => setKey d kv.1 kv.2) {}
    match d.subscribers with
    | .jarr xs =>
      (normalizeSubs xs).map fun subs =>
        { code := d.code, timestamp := d.timestamp, party_info := d.party_info
          message_id := d.message_id, ping_message_id := d.ping_message_id
          subscribers := subs }
    | _ =>
      .ok { code := d.code, timestamp := d.timestamp, party_info := d.party_info
            message_id := d.message_id, ping_message_id := d.ping_message_id
            subscribers := [] }
  | some _ => .ok defaultLoaded

/-! ## Runtime session state and handlers -/

/-- The tracked game title (line 18). -/
def BG3_NAME : String := "Baldur\x27s Gate 3"

/-- The `party` attribute of an activity, after the shape-tolerant
extraction of lines 104-106: either absent/falsy, present with a sequence
`size`, or present without a usable `size`. -/
inductive PartyField where
  | noParty
  | withSize (size : List Int)
  | noSize
deriving DecidableEq

/-- A presence activity descriptor as consumed by `parse_party_info`. -/
structure Activity where
  name : String
  party : PartyField
deriving DecidableEq

/-- Parser `parse_party_info(activities)` (lines 99-109): the first activity whose
name is the tracked title and whose party carries a two-element size
sequence yields `"current/max"`; otherwise scanning continues; no match
yields `None`. -/
def parse_party_info : List Activity → Option String
  | [] => none
  | a :: rest =>
    if a.name == BG3_NAME then
      match a.party with
      | .withSize [c, m] => some (toString c ++ "/" ++ toString m)
      | _ => parse_party_info rest
    else parse_party_info rest

/-- Python truthiness of an optional string (`if new_party`):
`None` and the empty string are falsy. -/
def pyTruthy : Option String → Bool
  | none => false
  | some s => !(s == "")

/-- Python `s.isalnum()`: true iff `s` is nonempty and every character is
alphanumeric.  (Python extends "alphanumeric" to all Unicode
letters/digits; over the ASCII inputs the commands exercise the two
notions agree.) -/
def pyIsAlnum (s : String) : Bool :=
  !(s == "") && s.toList.all Char.isAlphanum

/-- Ephemeral command replies, identified by kind (the literal texts of the
source carry no further state). -/
inductive Reply where
  | notHost
  | formatError
  | codeSet (code : String) (notify : Bool)
  | cleared
  | alreadySubscribed
  | subscribed
  | notSubscribed
  | unsubscribed
deriving DecidableEq

/-- Requested external side effects, in program order.
`deletePing` is the best-effort fetch-and-delete of a ping message (all
exceptions swallowed); `createPing` is the channel send of the
"please set code" ping; `refreshStatus` abstracts `update_message()`;
`scheduleSave` is a call to the debounced `save_data`; `sendDM`/`dmFailed`
are one subscriber notification attempt (succeeded / raised
`discord.Forbidden`, which is caught and logged in the loop). -/
inductive Effect where
  | deletePing (pingId : Nat)
  | createPing
  | refreshStatus
  | scheduleSave
  | sendDM (uid : Int) (code : String)
  | dmFailed (uid : Int)
  | reply (r : Reply)
deriving DecidableEq

/-- The in-memory session record (the global `data` dict, line 94). -/
structure Session where
  code : Option String
  timestamp : Option Int
  party_info : Option String
  message_id : Option Nat
  ping_message_id : Option Nat
  subscribers : List Int
deriving DecidableEq

/-- The default session: all fields absent, no subscribers. -/
def defaultSession : Session :=
  { code := none, timestamp := none, party_info := none
    message_id := none, ping_message_id := none, subscribers := [] }

/-- The subscriber notification loop of `code_set` (lines 222-227): one
attempt per registry entry in order; `fails uid` says whether this
fetch/send for that recipient raises `discord.Forbidden`, which is caught inside
the loop body, so the loop always proceeds to the next entry. -/
def dm_loop (fails : Int → Bool) (code : String) : List Int → List Effect
  | [] => []
  | uid :: rest =>
    (if fails uid then Effect.dmFailed uid else Effect.sendDM uid code)
      :: dm_loop fails code rest

/-- Command `/party set` (`code_set`, lines 199-228; the duplicated block at lines
229-253 is unreachable after the `return` on line 228).  Non-owner callers
and malformed codes are rejected with the state untouched; otherwise the
code and timestamp are set (the self-assignment of `party_info`
on line 207 is a no-op), any existing ping message is deleted and its
handle cleared, a save is scheduled, the status message is refreshed, and
subscribers are notified when `notify` holds and the code changed. -/
def code_set (uSER_ID : Int) (now : Int) (dmFails : Int → Bool)
    (callerId : Int) (code : String) (notify : Bool) (s : Session) :
    Session × List Effect :=
  if callerId ≠ uSER_ID then (s, [Effect.reply .notHost])
  else if !(pyIsAlnum code && code.length == 14) then
    (s, [Effect.reply .formatError])
  else
    let old_code := s.code
    let delEffs : List Effect :=
      match s.ping_message_id with
      | some pid => [Effect.deletePing pid]
      | none => []
    let s2 : Session :=
      { s with code := some code, timestamp := some now, ping_message_id := none }
    let dmEffs : List Effect :=
      if notify && !(old_code == some code) then dm_loop dmFails code s2.subscribers
      else []
    (s2, delEffs ++ [Effect.scheduleSave, Effect.refreshStatus] ++ dmEffs
          ++ [Effect.reply (.codeSet code notify)])

/-- Command `/party clear` (`code_clear`, lines 279-295): owner-gated; clears the
code, sets the timestamp, clears `party_info`, deletes any existing ping
message and clears its handle, schedules a save and refreshes the status
message. -/
def code_clear (uSER_ID : Int) (now : Int) (callerId : Int) (s : Session) :
    Session × List Effect :=
  if callerId ≠ uSER_ID then (s, [Effect.reply .notHost])
  else
    let delEffs : List Effect :=
      match s.ping_message_id with
      | some pid => [Effect.deletePing pid]
      | none => []
    let s2 : Session :=
      { s with code := none, timestamp := some now, party_info := none
               ping_message_id := none }
    (s2, delEffs ++ [Effect.scheduleSave, Effect.refreshStatus,
                     Effect.reply .cleared])

/-- Command `/party subscribe` (lines 177-185): no-op reply if already registered,
else append the identity at the end, schedule a save and confirm. -/
def subscribe (uid : Int) (s : Session) : Session × List Effect :=
  if uid ∈ s.subscribers then (s, [Effect.reply .alreadySubscribed])
  else
    ({ s with subscribers := s.subscribers ++ [uid] },
     [Effect.scheduleSave, Effect.reply .subscribed])

/-- Command `/party unsubscribe` (lines 187-195): no-op reply if not registered,
else remove the first occurrence (`list.remove`), schedule a save and
confirm. -/
def unsubscribe (uid : Int) (s : Session) : Session × List Effect :=
  if uid ∈ s.subscribers then
    ({ s with subscribers := s.subscribers.erase uid },
     [Effect.scheduleSave, Effect.reply .unsubscribed])
  else (s, [Effect.reply .notSubscribed])

/-- `on_presence_update` (lines 298-334).  Updates for a subject other than
the configured owner return immediately.  A reading value-equal to the
stored `party_info` does nothing.  Otherwise `party_info` and the
timestamp are updated; if the party ended the code is cleared and any ping
message deleted with its handle cleared; if the party newly appeared while
no code is set and the channel permits sending, a ping is sent and its
handle (`newPingId`, the id of the sent message) stored; finally a save is
scheduled and the status message refreshed. -/
def on_presence_update (uSER_ID : Int) (now : Int) (newPingId : Nat)
    (permsSend : Bool) (subjectId : Int) (acts : List Activity)
    (s : Session) : Session × List Effect :=
  if subjectId ≠ uSER_ID then (s, [])
  else
    let new_party := parse_party_info acts
    if new_party = s.party_info then (s, [])
    else if new_party = none then
      match s.ping_message_id with
      | some pid =>
        ({ s with party_info := none, timestamp := some now, code := none
                  ping_message_id := none },
         [Effect.deletePing pid, Effect.scheduleSave, Effect.refreshStatus])
      | none =>
        ({ s with party_info := none, timestamp := some now, code := none },
         [Effect.scheduleSave, Effect.refreshStatus])
    else
      if pyTruthy new_party && (s.party_info == none) && (s.code == none) then
        if permsSend then
          ({ s with party_info := new_party, timestamp := some now
                    ping_message_id := some newPingId },
           [Effect.createPing, Effect.scheduleSave, Effect.refreshStatus])
        else
          ({ s with party_info := new_party, timestamp := some now },
           [Effect.scheduleSave, Effect.refreshStatus])
      else
        ({ s with party_info := new_party, timestamp := some now },
         [Effect.scheduleSave, Effect.refreshStatus])

/-! ## Operation sequences

One mutating entry point of the bot, with its environment inputs packaged
in the constructor.  The read-only commands (`/party info`,
`/bg3lb_status`) never write to `data` and are omitted. -/
inductive Op where
  | presence (now : Int) (pingId : Nat) (perms : Bool) (subjectId : Int)
      (acts : List Activity)
  | set (now : Int) (dmFails : Int → Bool) (caller : Int) (code : String)
      (notify : Bool)
  | clear (now : Int) (caller : Int)
  | sub (uid : Int)
  | unsub (uid : Int)

/-- Apply one operation to the session, returning the new session and the
requested effects. -/
def applyOp (uSER_ID : Int) (s : Session) : Op → Session × List Effect
  | .presence now pid perms subj acts =>
    on_presence_update uSER_ID now pid perms subj acts s
  | .set now fb caller code notify => code_set uSER_ID now fb caller code notify s
  | .clear now caller => code_clear uSER_ID now caller s
  | .sub uid => subscribe uid s
  | .unsub uid => unsubscribe uid s

/-- Run a sequence of operations, keeping only the session state. -/
def runOps (uSER_ID : Int) (s : Session) (ops : List Op) : Session :=
  ops.foldl (fun s op => (applyOp uSER_ID s op).1) s

/-- Invariant I1 of the spec: `partyOccupancy` absent implies `code`
absent. -/
def I1 (s : Session) : Prop := s.party_info = none → s.code = none

instance (s : Session) : Decidable (I1 s) := by unfold I1; infer_instance

/-- Discriminator for the `set` command among operations. -/
def isSetOp : Op → Bool
  | .set .. => true
  | _ => false

/-! ## Debounced persister (`save_data` / `_immediate_save`, lines 36-55) -/

/-- The single global timer slot `_save_handle`: absent, or pending with
the snapshot its callback will write.  (In the source the callback closes
over the global `data` dict, which is rescheduled on every mutation, so
the pending snapshot always is the one of the latest `save_data` call.) -/
structure SaverState where
  save_handle : Option Session
deriving DecidableEq

/-- Debounced `save_data(data)` (lines 47-55): cancel any pending timer and schedule
`_immediate_save(data)` after the fixed quiet period. -/
def save_data (st : SaverState) (d : Session) : SaverState :=
  { save_handle := some d }

/-- The quiet period elapses without a further `save_data` call: the
pending callback, if any, runs `_immediate_save` exactly once and the slot
empties.  Returns the list of durable writes performed. -/
def timer_expire : SaverState → SaverState × List Session
  | { save_handle := some d } => ({ save_handle := none }, [d])
  | { save_handle := none } => ({ save_handle := none }, [])

/-! ## Observation helpers used by the theorems -/

/-- A concrete session with an active party and an outstanding ping. -/
def pingSession : Session :=
  { defaultSession with party_info := some "1/4", ping_message_id := some 9 }

/-- The recipient of a direct-notification attempt, if the effect is one. -/
def dmTarget : Effect → Option Int
  | .sendDM uid _ => some uid
  | .dmFailed uid => some uid
  | _ => none

/-- The recipients of all direct-notification attempts in an effect list,
in order. -/
def dmTargets (effs : List Effect) : List Int := effs.filterMap dmTarget

/-- Whether a raw subscriber entry survives `int(u)` without raising:
only a string that is not an integer literal raises. -/
def normalizable : JValue → Bool
  | .jstr t => (pyIntOfString t).isSome
  | _ => true

/-- The canonical numeric identity of a raw subscriber entry, `none` for
the shapes the `isinstance` filter drops. -/
def subNorm : JValue → Option Int
  | .jint n => some n
  | .jbool b => some (if b then 1 else 0)
  | .jstr t => pyIntOfString t
  | _ => none

/-! ## Theorems -/

/-- C10: a presence update for a subject other than the configured owner
returns immediately: the session is unchanged and no effect is requested. -/
theorem presence_nonowner_noop (uSER_ID now : Int) (pid : Nat) (perms : Bool)
    (subj : Int) (acts : List Activity) (s : Session) (h : subj ≠ uSER_ID) :
    on_presence_update uSER_ID now pid perms subj acts s = (s, []) := by
  simp [on_presence_update, h]

/-- Witness for C10 at a concrete non-owner subject. -/
theorem presence_nonowner_noop_witness :
    on_presence_update 0 1 2 true 3 [] defaultSession = (defaultSession, []) :=
  presence_nonowner_noop 0 1 2 true 3 [] defaultSession (by decide)

/-- C5: when the normalized occupancy reading is value-equal to the stored
`party_info` (including both absent), the reconciler mutates nothing and
requests no effect. -/
theorem presence_equal_noop (uSER_ID now : Int) (pid : Nat) (perms : Bool)
    (subj : Int) (acts : List Activity) (s : Session)
    (h : parse_party_info acts = s.party_info) :
    on_presence_update uSER_ID now pid perms subj acts s = (s, []) := by
  by_cases hs : subj ≠ uSER_ID
  · simp [on_presence_update, hs]
  · simp [on_presence_update, hs, h]

/-- Witness for C5: both readings absent. -/
theorem presence_equal_noop_witness :
    on_presence_update 0 1 2 true 0 [] defaultSession = (defaultSession, []) :=
  presence_equal_noop 0 1 2 true 0 [] defaultSession rfl

/-- Helper: folding a nonempty burst of `save_data` calls leaves exactly the
last snapshot pending, whatever was pending before. -/
theorem foldl_save_data (ds : List Session) (d : Session) (st : SaverState)
    (h : ds.getLast? = some d) :
    ds.foldl save_data st = { save_handle := some d } := by
  induction ds generalizing st with
  | nil => simp at h
  | cons a rest ih =>
    cases rest with
    | nil => simp_all [save_data]
    | cons b t =>
      rw [List.getLast?_cons_cons] at h
      simpa [List.foldl] using ih (save_data st a) h

/-- C7: a burst of `save_data` calls within one quiet period yields, when
the timer finally expires, exactly one durable write, and it contains the
snapshot of the last call; any previously pending write was cancelled, not
queued. -/
theorem debounce_coalescing (st : SaverState) (ds : List Session) (d : Session)
    (h : ds.getLast? = some d) :
    timer_expire (ds.foldl save_data st) = ({ save_handle := none }, [d]) := by
  rw [foldl_save_data ds d st h]; rfl

/-- Witness for C7: two mutations in one quiet period; the single write
holds the second snapshot, even though a write was already pending. -/
theorem debounce_coalescing_witness :
    timer_expire ([defaultSession,
        { defaultSession with code := some "A" }].foldl save_data
        { save_handle := some defaultSession })
      = ({ save_handle := none }, [{ defaultSession with code := some "A" }]) :=
  debounce_coalescing { save_handle := some defaultSession } _ _ rfl

/-- C4: the `set` validator accepts a string iff it has exactly 14
characters, all alphanumeric (so empty, short, long and
punctuation-containing inputs are rejected), and on a rejected code the
command replies with the format error and leaves the session untouched. -/
theorem code_validator (uSER_ID now : Int) (fb : Int → Bool) (notify : Bool) :
    (∀ code : String,
      (pyIsAlnum code && code.length == 14) = true ↔
        (code.length = 14 ∧ ∀ c ∈ code.toList, c.isAlphanum = true))
    ∧ (∀ (code : String) (s : Session),
        ¬ (code.length = 14 ∧ ∀ c ∈ code.toList, c.isAlphanum = true) →
        code_set uSER_ID now fb uSER_ID code notify s
          = (s, [Effect.reply .formatError])) := by
  have hchar : ∀ code : String,
      (pyIsAlnum code && code.length == 14) = true ↔
        (code.length = 14 ∧ ∀ c ∈ code.toList, c.isAlphanum = true) := by
    intro code
    constructor
    · intro h
      simp only [pyIsAlnum, Bool.and_eq_true, beq_iff_eq, Bool.not_eq_true',
        List.all_eq_true] at h
      exact ⟨h.2, h.1.2⟩
    · rintro ⟨h14, hall⟩
      have hne : code ≠ "" := by
        intro he; rw [he] at h14; simp at h14
      simp only [pyIsAlnum, Bool.and_eq_true, beq_iff_eq, Bool.not_eq_true',
        List.all_eq_true]
      exact ⟨⟨by simpa using hne, hall⟩, h14⟩
  refine ⟨hchar, fun code s hbad => ?_⟩
  have hguard : (pyIsAlnum code && code.length == 14) = false := by
    rcases Bool.eq_false_or_eq_true (pyIsAlnum code && code.length == 14) with h | h
    · exact absurd ((hchar code).mp h) hbad
    · exact h
  simp [code_set, hguard]

/-- Witness for C4: `"short"` is rejected with a format error and the
default session is unchanged. -/
theorem code_validator_witness :
    code_set 0 0 (fun _ => false) 0 "short" true defaultSession
      = (defaultSession, [Effect.reply .formatError]) :=
  (code_validator 0 0 (fun _ => false) true).2 "short" defaultSession (by decide)

/-- Counterexample for C3: the claim says `clear` leaves `partyOccupancy`
unchanged, but `code_clear` sets `party_info` to absent
(line 285): with a stored party of `"1/4"`, a clear by the owner erases it. -/
theorem clear_party_cex :
    (code_clear 0 5 0 { defaultSession with party_info := some "1/4" }).1.party_info
      ≠ some "1/4" := by decide

/-- C3 (amended): the clear command of the owner sets `code`, `party_info` and the
ping handle all to absent, stamps the mutation time, leaves the subscriber
registry and status-message handle intact, requests the deletion of any
existing ping message, schedules a save and refreshes the status
message. -/
theorem clear_effects (uSER_ID now caller : Int) (s : Session)
    (h : caller = uSER_ID) :
    (code_clear uSER_ID now caller s).1.code = none
    ∧ (code_clear uSER_ID now caller s).1.party_info = none
    ∧ (code_clear uSER_ID now caller s).1.ping_message_id = none
    ∧ (code_clear uSER_ID now caller s).1.timestamp = some now
    ∧ (code_clear uSER_ID now caller s).1.subscribers = s.subscribers
    ∧ (code_clear uSER_ID now caller s).1.message_id = s.message_id
    ∧ (∀ pid, s.ping_message_id = some pid →
        Effect.deletePing pid ∈ (code_clear uSER_ID now caller s).2)
    ∧ Effect.refreshStatus ∈ (code_clear uSER_ID now caller s).2
    ∧ Effect.scheduleSave ∈ (code_clear uSER_ID now caller s).2 := by
  subst h
  refine ⟨?_, ?_, ?_, ?_, ?_, ?_, ?_, ?_, ?_⟩ <;>
    simp [code_clear] <;>
    (try intro pid hpid) <;>
    simp_all [code_clear]

/-- Witness for C3 (amended) at a concrete session with an outstanding
ping. -/
theorem clear_effects_witness :
    (code_clear 0 5 0 pingSession).1.party_info = none
    ∧ Effect.deletePing 9 ∈ (code_clear 0 5 0 pingSession).2 :=
  ⟨(clear_effects 0 5 0 pingSession rfl).2.1,
   (clear_effects 0 5 0 pingSession rfl).2.2.2.2.2.2.1 9 rfl⟩

/-- Counterexample for C1: from the default session, the set command of
the owner with a valid code establishes a code while no party is
active (`code_set` never checks `party_info`), violating invariant I1. -/
theorem I1_cex :
    ¬ I1 (runOps 0 defaultSession
        [Op.set 5 (fun _ => false) 0 "ABCDEFGHIJKLMN" true]) := by decide

/-- Helper: the reconciler preserves invariant I1. -/
theorem on_presence_update_I1 (uSER_ID now : Int) (pid : Nat) (perms : Bool)
    (subj : Int) (acts : List Activity) (s : Session) (h1 : I1 s) :
    I1 (on_presence_update uSER_ID now pid perms subj acts s).1 := by
  unfold I1 at *
  by_cases hsub : subj = uSER_ID
  case neg => simpa [on_presence_update, hsub] using h1
  by_cases heq : parse_party_info acts = s.party_info
  · simpa [on_presence_update, hsub, heq] using h1
  by_cases hn : parse_party_info acts = none
  · rw [hn] at heq
    cases hping : s.ping_message_id <;>
      simp [on_presence_update, hsub, heq, hn, hping]
  by_cases hc : (pyTruthy (parse_party_info acts)
      && (s.party_info == none) && (s.code == none)) = true
  · cases hperm : perms <;> simp [on_presence_update, hsub, heq, hn, hc]
  · simp [on_presence_update, hsub, heq, hn, hc]

/-- Helper: every non-`set` operation preserves invariant I1. -/
theorem I1_step (uSER_ID : Int) (s : Session) (op : Op) (h1 : I1 s)
    (hop : isSetOp op = false) : I1 (applyOp uSER_ID s op).1 := by
  cases op with
  | presence now pid perms subj acts =>
    exact on_presence_update_I1 uSER_ID now pid perms subj acts s h1
  | set now fb caller code notify => simp [isSetOp] at hop
  | clear now caller =>
    simp only [applyOp]
    unfold I1 at *
    by_cases hcall : caller = uSER_ID
    · simp [code_clear, hcall]
    · simpa [code_clear, hcall] using h1
  | sub uid =>
    simp only [applyOp]
    unfold I1 at *
    by_cases hm : uid ∈ s.subscribers
    · simpa [subscribe, hm] using h1
    · simpa [subscribe, hm] using h1
  | unsub uid =>
    simp only [applyOp]
    unfold I1 at *
    by_cases hm : uid ∈ s.subscribers
    · simpa [unsubscribe, hm] using h1
    · simpa [unsubscribe, hm] using h1

/-- Helper: I1 is preserved along any run of non-`set` operations. -/
theorem I1_run (uSER_ID : Int) (s : Session) (ops : List Op) (h1 : I1 s)
    (h : ∀ op ∈ ops, isSetOp op = false) : I1 (runOps uSER_ID s ops) := by
  induction ops generalizing s with
  | nil => exact h1
  | cons op rest ih =>
    exact ih (applyOp uSER_ID s op).1
      (I1_step uSER_ID s op h1 (h op (by simp)))
      (fun o ho => h o (by simp [ho]))

/-- C1 (amended): for every sequence of Presence Reconciler, `clear`,
`subscribe` and `unsubscribe` operations from the default session — i.e.
every operation except the `set` command — invariant I1 holds at every
point: whenever `party_info` is absent, `code` is absent.  (The `set`
command can break I1 by establishing a code while no party is active; see
the counterexample.)  Every intermediate point of a run is the final state
of the corresponding prefix, so quantifying over all such sequences covers
every point. -/
theorem I1_preserved_without_set (uSER_ID : Int) (ops : List Op)
    (h : ∀ op ∈ ops, isSetOp op = false) :
    I1 (runOps uSER_ID defaultSession ops) :=
  I1_run uSER_ID defaultSession ops (fun _ => rfl) h

/-- Witness for C1 (amended): a party appears, then ends, then the owner
clears; I1 holds at the end. -/
theorem I1_preserved_without_set_witness :
    I1 (runOps 0 defaultSession
      [Op.presence 1 9 true 0 [{ name := BG3_NAME, party := .withSize [1, 4] }],
       Op.presence 2 9 true 0 [],
       Op.clear 3 0]) :=
  I1_preserved_without_set 0 _ (by
    intro op hop
    simp only [List.mem_cons, List.not_mem_nil, or_false] at hop
    rcases hop with h | h | h <;> subst h <;> rfl)

/-- Counterexample for C9: with `7` already subscribed, `subscribe(7)` is a
no-op and `unsubscribe(7)` then removes the pre-existing entry, so the
round trip does not restore the registry. -/
theorem registry_roundtrip_cex :
    (unsubscribe 7 (subscribe 7
        { defaultSession with subscribers := [7] }).1).1.subscribers ≠ [7] := by
  decide

/-- Helper: the reconciler never touches the subscriber registry. -/
theorem on_presence_update_subscribers (uSER_ID now : Int) (pid : Nat)
    (perms : Bool) (subj : Int) (acts : List Activity) (s : Session) :
    (on_presence_update uSER_ID now pid perms subj acts s).1.subscribers
      = s.subscribers := by
  by_cases hsub : subj = uSER_ID
  case neg => simp [on_presence_update, hsub]
  by_cases heq : parse_party_info acts = s.party_info
  · simp [on_presence_update, hsub, heq]
  by_cases hn : parse_party_info acts = none
  · rw [hn] at heq
    cases hping : s.ping_message_id <;>
      simp [on_presence_update, hsub, heq, hn, hping]
  by_cases hc : (pyTruthy (parse_party_info acts)
      && (s.party_info == none) && (s.code == none)) = true
  · cases hperm : perms <;> simp [on_presence_update, hsub, heq, hn, hc]
  · simp [on_presence_update, hsub, heq, hn, hc]

/-- Helper: the `set` command never touches the subscriber registry. -/
theorem code_set_subscribers (uSER_ID now : Int) (fb : Int → Bool)
    (caller : Int) (code : String) (notify : Bool) (s : Session) :
    (code_set uSER_ID now fb caller code notify s).1.subscribers
      = s.subscribers := by
  by_cases hcall : caller = uSER_ID
  · by_cases hv : (pyIsAlnum code && code.length == 14) = true <;>
      simp [code_set, hcall, hv]
  · simp [code_set, hcall]

/-- Helper: the `clear` command never touches the subscriber registry. -/
theorem code_clear_subscribers (uSER_ID now caller : Int) (s : Session) :
    (code_clear uSER_ID now caller s).1.subscribers = s.subscribers := by
  by_cases hcall : caller = uSER_ID <;> simp [code_clear, hcall]

/-- Helper: every operation preserves freedom from duplicates of the
subscriber registry. -/
theorem nodup_step (uSER_ID : Int) (s : Session) (op : Op)
    (h : s.subscribers.Nodup) : (applyOp uSER_ID s op).1.subscribers.Nodup := by
  cases op with
  | presence now pid perms subj acts =>
    simpa only [applyOp, on_presence_update_subscribers] using h
  | set now fb caller code notify =>
    simpa only [applyOp, code_set_subscribers] using h
  | clear now caller =>
    simpa only [applyOp, code_clear_subscribers] using h
  | sub uid =>
    simp only [applyOp]
    by_cases hm : uid ∈ s.subscribers
    · simpa [subscribe, hm] using h
    · simp [subscribe, hm, List.nodup_append, h, List.disjoint_singleton]
  | unsub uid =>
    simp only [applyOp]
    by_cases hm : uid ∈ s.subscribers
    · simpa [unsubscribe, hm] using h.erase uid
    · simpa [unsubscribe, hm] using h

/-- C9 (amended): `subscribe(u)` followed by `unsubscribe(u)` restores the
registry when `u` was not already subscribed (when `u` was subscribed, the
pair removes the pre-existing entry; see the counterexample);
`subscribe(u)` twice leaves the whole session as after the first call; a
fresh subscription appends at the end (insertion order) and an
unsubscription removes an entry while keeping the order of the others
(the result is a sublist); and along any sequence of operations a
duplicate-free registry stays duplicate-free (invariant I3). -/
theorem registry_properties (uSER_ID : Int) :
    (∀ (s : Session) (u : Int), u ∉ s.subscribers →
        (unsubscribe u (subscribe u s).1).1.subscribers = s.subscribers)
    ∧ (∀ (s : Session) (u : Int),
        (subscribe u (subscribe u s).1).1 = (subscribe u s).1)
    ∧ (∀ (s : Session) (u : Int), u ∉ s.subscribers →
        (subscribe u s).1.subscribers = s.subscribers ++ [u])
    ∧ (∀ (s : Session) (u : Int),
        (unsubscribe u s).1.subscribers.Sublist s.subscribers)
    ∧ (∀ (s : Session) (ops : List Op), s.subscribers.Nodup →
        (runOps uSER_ID s ops).subscribers.Nodup) := by
  refine ⟨?_, ?_, ?_, ?_, ?_⟩
  · intro s u hu
    have hmem : u ∈ (subscribe u s).1.subscribers := by
      simp [subscribe, hu]
    simp only [unsubscribe, if_pos hmem]
    simp [subscribe, hu, List.erase_append_right _ hu]
  · intro s u
    by_cases hu : u ∈ s.subscribers
    · simp [subscribe, hu]
    · simp [subscribe, hu]
  · intro s u hu
    simp [subscribe, hu]
  · intro s u
    by_cases hm : u ∈ s.subscribers
    · simpa [unsubscribe, hm] using List.erase_sublist u s.subscribers
    · simp [unsubscribe, hm]
  · intro s ops h
    induction ops generalizing s with
    | nil => exact h
    | cons op rest ih =>
      exact ih (applyOp uSER_ID s op).1 (nodup_step uSER_ID s op h)

/-- Witness for C9 (amended): a fresh subscribe/unsubscribe round trip on a
concrete registry, and Nodup preservation along a concrete run. -/
theorem registry_properties_witness :
    (unsubscribe 5 (subscribe 5
        { defaultSession with subscribers := [3] }).1).1.subscribers = [3]
    ∧ (runOps 0 { defaultSession with subscribers := [3] }
        [Op.sub 4, Op.sub 4, Op.unsub 3]).subscribers.Nodup :=
  ⟨(registry_properties 0).1 _ 5 (by decide),
   (registry_properties 0).2.2.2.2 _ [Op.sub 4, Op.sub 4, Op.unsub 3]
     (by decide)⟩

/-- Helper: a normalized occupancy string produced by `parse_party_info`
is never empty (it always contains the `/` separator), so Python
truthiness of the reading agrees with presence. -/
theorem parse_party_info_ne_empty (acts : List Activity) (p : String)
    (h : parse_party_info acts = some p) : p ≠ "" := by
  induction acts with
  | nil => simp [parse_party_info] at h
  | cons a rest ih =>
    by_cases hname : (a.name == BG3_NAME) = true
    · simp only [parse_party_info, hname, if_pos] at h
      cases hp : a.party with
      | noParty => rw [hp] at h; exact ih h
      | noSize => rw [hp] at h; exact ih h
      | withSize sz =>
        rw [hp] at h
        rcases sz with _ | ⟨c, _ | ⟨m, _ | ⟨x, t⟩⟩⟩
        · exact ih h
        · exact ih h
        · injection h with h2
          subst h2
          intro he
          have hlen : (toString c ++ "/" ++ toString m).length = 0 := by
            rw [he]; rfl
          have hone : ("/" : String).length = 1 := rfl
          rw [String.length_append, String.length_append, hone] at hlen
          omega
        · exact ih h
    · simp only [parse_party_info, hname, if_neg, Bool.not_eq_true] at h
      exact ih h

/-- C6: with the channel permitting sends, an owner presence update
requests creation of a ping message exactly when the stored occupancy was
absent, the new reading carries a party, and no code is stored — so no
ping is issued when a code is present or when the party was already active
— and in the creation case the handle of the new message is stored. -/
theorem ping_exactly_on_appearance (uSER_ID now : Int) (pid : Nat)
    (subj : Int) (acts : List Activity) (s : Session) (hsubj : subj = uSER_ID) :
    (Effect.createPing ∈ (on_presence_update uSER_ID now pid true subj acts s).2
       ↔ s.party_info = none ∧ (parse_party_info acts).isSome = true
         ∧ s.code = none)
    ∧ (s.party_info = none → s.code = none →
        (parse_party_info acts).isSome = true →
        (on_presence_update uSER_ID now pid true subj acts s).1.ping_message_id
          = some pid) := by
  subst hsubj
  cases hp : parse_party_info acts with
  | none =>
    by_cases heq : (none : Option String) = s.party_info
    · simp [on_presence_update, hp, heq]
    · cases hping : s.ping_message_id <;>
        simp [on_presence_update, hp, heq, hping]
  | some p =>
    have hpe : p ≠ "" := parse_party_info_ne_empty acts p hp
    by_cases heq : (some p : Option String) = s.party_info
    · have hpn : s.party_info = some p := heq.symm
      simp [on_presence_update, hp, hpn]
    · by_cases hpn : s.party_info = none
      · by_cases hcode : s.code = none
        · simp [on_presence_update, hp, heq, hpn, hcode, pyTruthy, hpe]
        · simp [on_presence_update, hp, heq, hpn, hcode, pyTruthy, hpe]
      · simp [on_presence_update, hp, heq, hpn, pyTruthy, hpe]

/-- Witness for C6: empty session, a `(1,4)` party reading for the owner:
the ping is requested and its handle stored (spec Scenario A). -/
theorem ping_exactly_on_appearance_witness :
    Effect.createPing ∈ (on_presence_update 0 1 9 true 0
        [{ name := BG3_NAME, party := .withSize [1, 4] }] defaultSession).2
    ∧ (on_presence_update 0 1 9 true 0
        [{ name := BG3_NAME, party := .withSize [1, 4] }]
        defaultSession).1.ping_message_id = some 9 :=
  ⟨((ping_exactly_on_appearance 0 1 9 0 _ defaultSession rfl).1).mpr
      (by refine ⟨rfl, ?_, rfl⟩; rfl),
   (ping_exactly_on_appearance 0 1 9 0 _ defaultSession rfl).2 rfl rfl rfl⟩

/-- Helper: the notification loop attempts one delivery per registry entry
in order, whatever subset of recipients fails. -/
theorem dm_loop_targets (fb : Int → Bool) (code : String) (l : List Int) :
    (dm_loop fb code l).filterMap dmTarget = l := by
  induction l with
  | nil => rfl
  | cons u rest ih =>
    cases hu : fb u <;>
      simpa [dm_loop, dmTarget, hu, List.filterMap_cons] using ih

/-- C8: direct notifications are attempted exactly by the set command of
the owner when `notify` holds and the new code differs from the stored one —
one attempt per subscriber, in registry order, independent of which
recipients fail (a caught per-recipient failure does not abort the rest) —
the committed state (including the already-set code) does not depend on
delivery failures, and no other operation (reconciler, `clear`,
`subscribe`, `unsubscribe`) ever attempts a direct notification. -/
theorem notification_fanout (uSER_ID now : Int) (fb : Int → Bool)
    (code : String) (notify : Bool) (s : Session)
    (hvalid : (pyIsAlnum code && code.length == 14) = true) :
    (dmTargets (code_set uSER_ID now fb uSER_ID code notify s).2
        = if notify = true ∧ s.code ≠ some code then s.subscribers else [])
    ∧ (code_set uSER_ID now fb uSER_ID code notify s).1.code = some code
    ∧ (code_set uSER_ID now fb uSER_ID code notify s).1
        = (code_set uSER_ID now (fun _ => false) uSER_ID code notify s).1
    ∧ (∀ (pid : Nat) (perms : Bool) (subj : Int) (acts : List Activity)
        (s2 : Session),
        dmTargets (on_presence_update uSER_ID now pid perms subj acts s2).2 = [])
    ∧ (∀ (caller : Int) (s2 : Session),
        dmTargets (code_clear uSER_ID now caller s2).2 = [])
    ∧ (∀ (uid : Int) (s2 : Session),
        dmTargets (subscribe uid s2).2 = []
        ∧ dmTargets (unsubscribe uid s2).2 = []) := by
  refine ⟨?_, ?_, ?_, ?_, ?_, ?_⟩
  · cases hping : s.ping_message_id <;>
      cases hn : notify <;>
        by_cases hc : s.code = some code <;>
          simp [code_set, hvalid, hping, hc, dmTargets, dmTarget,
            dm_loop_targets]
  · simp [code_set, hvalid]
  · simp [code_set, hvalid]
  · intro pid perms subj acts s2
    by_cases hsub : subj = uSER_ID
    case neg => simp [on_presence_update, hsub, dmTargets]
    by_cases heq : parse_party_info acts = s2.party_info
    · simp [on_presence_update, hsub, heq, dmTargets]
    by_cases hnone : parse_party_info acts = none
    · rw [hnone] at heq
      cases hping : s2.ping_message_id <;>
        simp [on_presence_update, hsub, heq, hnone, hping, dmTargets, dmTarget]
    by_cases hcnd : (pyTruthy (parse_party_info acts)
        && (s2.party_info == none) && (s2.code == none)) = true
    · cases hperm : perms <;>
        simp [on_presence_update, hsub, heq, hnone, hcnd, dmTargets, dmTarget]
    · simp [on_presence_update, hsub, heq, hnone, hcnd, dmTargets, dmTarget]
  · intro caller s2
    by_cases hcall : caller = uSER_ID <;>
      cases hping : s2.ping_message_id <;>
        simp [code_clear, hcall, hping, dmTargets, dmTarget]
  · intro uid s2
    by_cases hm : uid ∈ s2.subscribers <;>
      constructor <;> simp [subscribe, unsubscribe, hm, dmTargets, dmTarget]

/-- Witness for C8: three subscribers, delivery to the middle recipient
fails; all three are still attempted, in order. -/
theorem notification_fanout_witness :
    dmTargets (code_set 0 7 (fun u => u == 2) 0 "72ARXMVCQG35Z6" true
        { defaultSession with subscribers := [1, 2, 3] }).2 = [1, 2, 3] :=
  ((notification_fanout 0 7 (fun u => u == 2) "72ARXMVCQG35Z6" true
      { defaultSession with subscribers := [1, 2, 3] } (by decide)).1).trans
    (by decide)

/-- Counterexample for C2: a durable snapshot whose subscriber list holds
the non-numeric string `"abc"` passes the `isinstance` filter, and
`int("abc")` raises an uncaught `ValueError`: the load fails instead of
silently dropping the entry. -/
theorem load_data_raises_cex :
    load_data (some (.jobj [("subscribers", .jarr [.jstr "abc"])]))
      = .error () := by rfl

/-- Helper: when every entry survives `int(u)`, normalisation succeeds and
returns exactly the canonical identities of the `int`/`bool`/`str`
entries, dropping the rest. -/
theorem normalizeSubs_ok (xs : List JValue)
    (h : ∀ v ∈ xs, normalizable v = true) :
    normalizeSubs xs = .ok (xs.filterMap subNorm) := by
  induction xs with
  | nil => rfl
  | cons v rest ih =>
    have hrest := ih (fun w hw => h w (by simp [hw]))
    cases v with
    | null => simpa [normalizeSubs, subNorm, List.filterMap_cons] using hrest
    | jbool b =>
      simp [normalizeSubs, subNorm, List.filterMap_cons, hrest, Except.map]
    | jint n =>
      simp [normalizeSubs, subNorm, List.filterMap_cons, hrest, Except.map]
    | jstr t =>
      have hv := h (.jstr t) (by simp)
      simp only [normalizable] at hv
      obtain ⟨n, hn⟩ := Option.isSome_iff_exists.mp hv
      simp [normalizeSubs, subNorm, List.filterMap_cons, hn, hrest, Except.map]
    | jarr l => simpa [normalizeSubs, subNorm, List.filterMap_cons] using hrest
    | jobj l => simpa [normalizeSubs, subNorm, List.filterMap_cons] using hrest

/-- Helper: one non-numeric string entry anywhere in the list makes
normalisation raise. -/
theorem normalizeSubs_raises (xs : List JValue) (v : JValue) (hv : v ∈ xs)
    (hbad : normalizable v = false) : normalizeSubs xs = .error () := by
  induction xs with
  | nil => simp at hv
  | cons w rest ih =>
    rcases List.mem_cons.mp hv with rfl | hmem
    · cases v with
      | jstr t =>
        cases hp : pyIntOfString t with
        | some n => rw [normalizable, hp] at hbad; simp at hbad
        | none => simp [normalizeSubs, hp]
      | null => simp [normalizable] at hbad
      | jbool b => simp [normalizable] at hbad
      | jint n => simp [normalizable] at hbad
      | jarr l => simp [normalizable] at hbad
      | jobj l => simp [normalizable] at hbad
    · have hrest := ih hmem
      cases w with
      | jint n => simp [normalizeSubs, hrest, Except.map]
      | jbool b => simp [normalizeSubs, hrest, Except.map]
      | jstr t =>
        cases hp : pyIntOfString t with
        | some n => simp [normalizeSubs, hp, hrest, Except.map]
        | none => simp [normalizeSubs, hp]
      | null => simpa [normalizeSubs] using hrest
      | jarr l => simpa [normalizeSubs] using hrest
      | jobj l => simpa [normalizeSubs] using hrest

/-- C2 (amended): loading falls back to the full default record when the
file is unreadable (`none`) or the document is not a record; a missing
field keeps its default, but a present field of the wrong shape is
retained verbatim rather than defaulted (only `subscribers` is
shape-checked); subscriber entries that are not integers, booleans or
strings are silently dropped and the surviving entries are normalised to
canonical numeric identities — however a string entry that is not an
integer literal raises an uncaught error, so loading is not total. -/
theorem load_data_robustness :
    (load_data none = .ok defaultLoaded)
    ∧ (load_data (some .null) = .ok defaultLoaded)
    ∧ (∀ b : Bool, load_data (some (.jbool b)) = .ok defaultLoaded)
    ∧ (∀ n : Int, load_data (some (.jint n)) = .ok defaultLoaded)
    ∧ (∀ t : String, load_data (some (.jstr t)) = .ok defaultLoaded)
    ∧ (∀ xs : List JValue, load_data (some (.jarr xs)) = .ok defaultLoaded)
    ∧ (∀ xs : List JValue, (∀ v ∈ xs, normalizable v = true) →
        normalizeSubs xs = .ok (xs.filterMap subNorm))
    ∧ (∀ (xs : List JValue) (v : JValue), v ∈ xs → normalizable v = false →
        normalizeSubs xs = .error ())
    ∧ (load_data (some (.jobj [("code", .jint 5)]))
        = .ok { defaultLoaded with code := .jint 5 }) :=
  ⟨rfl, rfl, fun _ => rfl, fun _ => rfl, fun _ => rfl, fun _ => rfl,
   normalizeSubs_ok, normalizeSubs_raises, rfl⟩

/-- Witness for C2 (amended): a mixed list normalises with the non-`int`,
non-`str` entries dropped; a list holding `"abc"` raises. -/
theorem load_data_robustness_witness :
    normalizeSubs [.jint 3, .jstr "10", .jbool true, .jarr [], .null]
      = .ok [3, 10, 1]
    ∧ normalizeSubs [.jint 3, .jstr "abc"] = .error () :=
  ⟨(load_data_robustness.2.2.2.2.2.2.1
      [.jint 3, .jstr "10", .jbool true, .jarr [], .null]
      (by decide)).trans (by rfl),
   load_data_robustness.2.2.2.2.2.2.2.1 [.jint 3, .jstr "abc"] (.jstr "abc")
     (by simp) (by rfl)⟩

end BG3
